import Mathlib

/-!
# Verification of the store engine (`createStore`) and `compose`

Shallow embedding of the repository's store module (`src/src/compose.js`,
which contains both the `compose` primitive and the `createStore` store
engine) into Lean 4.

Modelling conventions:
* JS listener callbacks are identified by natural-number ids; the behaviour of
  a listener when invoked is an environment `beh : Nat → List Cmd` mapping the
  listener id to the sequence of store operations it performs (subscribing a
  new listener, calling an unsubscribe handle, or nothing).  Nested `dispatch`
  from a listener is outside the scope of the claims and is not a command.
* JS exceptions are `Except` errors.  A JS function that throws while having
  already mutated the store returns the mutated store alongside the error
  (JS exceptions do not roll state back).
* Array reference identity (`nextListeners === currentListeners`) is modelled
  by the explicit flag `listsShared`, updated exactly where the source
  aliases or clones the arrays.
* Each call to `subscribe` allocates one unsubscribe closure; the closure's
  captured mutable `isSubscribed` flag and captured `listener` live in the
  store-world's `handles` table, indexed by allocation order.
* The enhancer path of `createStore` (construction entirely delegated to the
  enhancer) and `replaceReducer` are outside the scope of the claims; the
  model covers the unenhanced construction path.  The `typeof reducer /
  listener !== 'function'` checks cannot fire in the model because reducers
  and listener ids are functions/ids by type.
-/

namespace Redux

/-- Modelled from the spec: `src/utils/actionTypes` is imported by the store
engine but its file is not part of the repository snapshot.  Spec §6: two
sentinel action kinds are reserved for internal use (an initialization kind
and a replace kind), "each namespaced with a fixed prefix plus a
build-time-random token, so that user-defined action type values cannot
collide with them by coincidence".  Distinct constructors give exactly that
collision-freedom; user types live in `user`. -/
inductive ActionType (τ : Type) where
  | init : ActionType τ
  | replace : ActionType τ
  | user : τ → ActionType τ
deriving DecidableEq, Repr

/-- The prototype situation of a JS key-value record: the generic base-object
prototype, an absent (null) prototype, or the prototype of an
application-defined class. -/
inductive Proto where
  | base : Proto
  | absent : Proto
  | cls : Proto
deriving DecidableEq, Repr

/-- A JS value in action position: a key-value record (with its prototype kind
and its `type` field, `none` meaning the field is absent/undefined), an
array, or a callable. -/
inductive ActionVal (τ : Type) where
  | record : Proto → Option (ActionType τ) → ActionVal τ
  | array : ActionVal τ
  | callable : ActionVal τ
deriving DecidableEq, Repr

/-- Modelled from the spec: `src/utils/isPlainObject` is imported by the store
engine but its file is not part of the repository snapshot.  Spec §4.1:
`dispatch` "fails with an InvalidActionError if `action` is not a key-value
record whose prototype chain is the generic base-object prototype or absent
(rejecting arrays, callables, and instances of application-defined
classes)". -/
def isPlainObject {τ : Type} : ActionVal τ → Bool
  | .record .base _ => true
  | .record .absent _ => true
  | .record .cls _ => false
  | .array => false
  | .callable => false

/-- `typeof action.type !== 'undefined'`: the record carries a defined `type`
field. -/
def hasDefinedType {τ : Type} : ActionVal τ → Bool
  | .record _ (some _) => true
  | _ => false

/-- `isPlainObject(action) && typeof action.type !== 'undefined'`: the action
passes both validation checks at the top of `dispatch`. -/
def validAction {τ : Type} (a : ActionVal τ) : Bool :=
  isPlainObject a && hasDefinedType a

/-- A reducer: `(currentState, action) => nextState`.  `currentState` is
`none` when it is JS `undefined` (no preloaded state).  A reducer that throws
returns `Except.error` with a code identifying the thrown exception. -/
def Reducer (σ τ : Type) : Type :=
  Option σ → ActionVal τ → Except Nat (Option σ)

/-- A pure (never-throwing) reducer, as the spec's data model defines
reducers. -/
def pureReducer {σ τ : Type} (r : Option σ → ActionVal τ → Option σ) : Reducer σ τ :=
  fun st a => Except.ok (r st a)

/-- The errors the store operations throw. -/
inductive DErr where
  /-- "Actions must be plain objects." -/
  | actionNotPlain : DErr
  /-- "Actions may not have an undefined \"type\" property." -/
  | actionTypeUndefined : DErr
  /-- "Reducers may not dispatch actions." -/
  | reentrantDispatch : DErr
  /-- "You may not call store.getState() while the reducer is executing." -/
  | reentrantGetState : DErr
  /-- "You may not call store.subscribe() while the reducer is executing." -/
  | reentrantSubscribe : DErr
  /-- "You may not unsubscribe from a store listener while the reducer is
  executing." -/
  | reentrantUnsubscribe : DErr
  /-- The reducer itself threw; the code identifies the reducer's exception. -/
  | reducerThrew : Nat → DErr
deriving DecidableEq, Repr

/-- One unsubscribe closure returned by `subscribe`: the captured `listener`
and the captured mutable `isSubscribed` flag. -/
structure Handle where
  listener : Nat
  isSubscribed : Bool
deriving DecidableEq, Repr

/-- The mutable world of one store: the closure variables of `createStore`
(`currentReducer`, `currentState`, `currentListeners`, `nextListeners`,
`isDispatching`), the sharing flag standing for the reference identity
`nextListeners === currentListeners`, and the table of unsubscribe-closure
states allocated by `subscribe` calls (handle id = allocation index). -/
structure Store (σ τ : Type) where
  currentReducer : Reducer σ τ
  currentState : Option σ
  currentListeners : List Nat
  nextListeners : List Nat
  /-- `nextListeners === currentListeners` (reference identity). -/
  listsShared : Bool
  isDispatching : Bool
  handles : List Handle

/-- `ensureCanMutateNextListeners`: if `nextListeners === currentListeners`,
set `nextListeners = currentListeners.slice()` — a fresh copy, so the two
arrays are no longer reference-identical. -/
def ensureCanMutateNextListeners {σ τ : Type} (s : Store σ τ) : Store σ τ :=
  if s.listsShared then
    { s with nextListeners := s.currentListeners, listsShared := false }
  else s

/-- `getState()`: throws while the reducer is executing, otherwise returns
`currentState`. -/
def getState {σ τ : Type} (s : Store σ τ) : Except DErr (Option σ) :=
  if s.isDispatching then Except.error DErr.reentrantGetState
  else Except.ok s.currentState

/-- `subscribe(listener)`: throws while the reducer is executing; otherwise
pushes the listener onto `nextListeners` (copy-on-write) and allocates a new
unsubscribe closure, returning its handle id.  (The `typeof listener !==
'function'` check cannot fire: listener ids always denote callbacks.) -/
def subscribe {σ τ : Type} (s : Store σ τ) (l : Nat) :
    Store σ τ × Except DErr Nat :=
  if s.isDispatching then (s, Except.error DErr.reentrantSubscribe)
  else
    let s' := ensureCanMutateNextListeners s
    ({ s' with
        nextListeners := s'.nextListeners ++ [l],
        handles := s'.handles ++ [⟨l, true⟩] },
      Except.ok s'.handles.length)

/-- `index = nextListeners.indexOf(listener); nextListeners.splice(index, 1)`:
removes the first occurrence of the listener; when the listener is absent,
`indexOf` yields `-1` and `splice(-1, 1)` removes the LAST element. -/
def spliceRemove (xs : List Nat) (l : Nat) : List Nat :=
  if xs.contains l then xs.erase l else xs.dropLast

/-- Calling the unsubscribe closure with handle id `h`: if its `isSubscribed`
flag is already cleared it returns at once (before any guard check); if the
reducer is executing it throws; otherwise it clears the flag and removes the
captured listener from `nextListeners` (copy-on-write).  A handle id that no
`subscribe` call allocated denotes no closure; calling it is a no-op. -/
def unsubscribeH {σ τ : Type} (s : Store σ τ) (h : Nat) :
    Store σ τ × Except DErr Unit :=
  match s.handles[h]? with
  | none => (s, Except.ok ())
  | some hd =>
    if !hd.isSubscribed then (s, Except.ok ())
    else if s.isDispatching then (s, Except.error DErr.reentrantUnsubscribe)
    else
      let s₁ : Store σ τ := { s with handles := s.handles.set h ⟨hd.listener, false⟩ }
      let s₂ := ensureCanMutateNextListeners s₁
      ({ s₂ with nextListeners := spliceRemove s₂.nextListeners hd.listener },
        Except.ok ())

/-- One store operation a listener may perform when invoked during a
notification pass. -/
inductive Cmd where
  /-- `store.subscribe(l)` (the returned handle is dropped). -/
  | subscribeL : Nat → Cmd
  /-- Call the unsubscribe closure with handle id `h`. -/
  | unsub : Nat → Cmd
  /-- Do nothing. -/
  | nop : Cmd
deriving DecidableEq, Repr

/-- Run one listener command; a thrown error propagates. -/
def runCmd {σ τ : Type} (s : Store σ τ) : Cmd → Store σ τ × Except DErr Unit
  | .subscribeL l =>
      let (s', r) := subscribe s l
      (s', r.map fun _ => ())
  | .unsub h => unsubscribeH s h
  | .nop => (s, Except.ok ())

/-- Run a listener's command sequence, stopping at the first thrown error. -/
def runCmds {σ τ : Type} (s : Store σ τ) :
    List Cmd → Store σ τ × Except DErr Unit
  | [] => (s, Except.ok ())
  | c :: cs =>
    match runCmd s c with
    | (s', Except.ok _) => runCmds s' cs
    | (s', Except.error e) => (s', Except.error e)

/-- The `for` loop of `dispatch`: invoke each listener of the snapshot in
order, returning the final store, the trace of listener ids actually invoked,
and either success or the first error a listener threw (which skips the
remaining listeners of the snapshot). -/
def notify {σ τ : Type} (beh : Nat → List Cmd) :
    List Nat → Store σ τ → Store σ τ × List Nat × Except DErr Unit
  | [], s => (s, [], Except.ok ())
  | l :: rest, s =>
    match runCmds s (beh l) with
    | (s', Except.ok _) =>
      let (s'', tr, r) := notify beh rest s'
      (s'', l :: tr, r)
    | (s', Except.error e) => (s', [l], Except.error e)

/-- `dispatch(action)`: validate the action (plain object, defined `type`),
refuse reentrant dispatch, then `try { isDispatching = true; currentState =
currentReducer(currentState, action) } finally { isDispatching = false }`,
then snapshot `const listeners = (currentListeners = nextListeners)` (making
the two arrays reference-identical) and invoke every listener of the
snapshot; finally return the very action value that was passed in.  Result:
(store after the call, trace of invoked listeners, returned action or thrown
error). -/
def dispatch {σ τ : Type} (beh : Nat → List Cmd) (s : Store σ τ)
    (a : ActionVal τ) : Store σ τ × List Nat × Except DErr (ActionVal τ) :=
  if !isPlainObject a then (s, [], Except.error DErr.actionNotPlain)
  else if !hasDefinedType a then (s, [], Except.error DErr.actionTypeUndefined)
  else if s.isDispatching then (s, [], Except.error DErr.reentrantDispatch)
  else
    let sGuard : Store σ τ := { s with isDispatching := true }
    match sGuard.currentReducer sGuard.currentState a with
    | Except.error code =>
        ({ sGuard with isDispatching := false }, [],
          Except.error (DErr.reducerThrew code))
    | Except.ok st' =>
      let s₁ : Store σ τ := { sGuard with currentState := st', isDispatching := false }
      let snapshot := s₁.nextListeners
      let s₂ : Store σ τ := { s₁ with currentListeners := s₁.nextListeners,
                                      listsShared := true }
      let (s₃, tr, r) := notify beh snapshot s₂
      (s₃, tr, r.map fun _ => a)

/-- The reserved initialization action `{ type: ActionTypes.INIT }`: an object
literal, hence a plain record with the base prototype. -/
def actInit (τ : Type) : ActionVal τ :=
  ActionVal.record Proto.base (some ActionType.init)

/-- The closure variables of `createStore` as first seeded, before the
internal INIT dispatch: `currentReducer = reducer`, `currentState =
preloadedState`, `currentListeners = []`, `nextListeners = currentListeners`
(the very same array), guard clear, no unsubscribe closures yet. -/
def initialStore {σ τ : Type} (r : Reducer σ τ) (preloadedState : Option σ) :
    Store σ τ :=
  { currentReducer := r
    currentState := preloadedState
    currentListeners := []
    nextListeners := []
    listsShared := true
    isDispatching := false
    handles := [] }

/-- `createStore(reducer, preloadedState)` on the unenhanced path: seed the
closure variables and perform the internal `dispatch({ type: ActionTypes.INIT
})`; an exception from that dispatch propagates out of the constructor.  (The
`typeof reducer !== 'function'` check cannot fire: reducers are functions by
type; the enhancer path delegates construction entirely and is outside the
claims' scope.) -/
def createStore {σ τ : Type} (beh : Nat → List Cmd) (r : Reducer σ τ)
    (preloadedState : Option σ) : Store σ τ × Except DErr Unit :=
  let p := dispatch beh (initialStore r preloadedState) (actInit τ)
  (p.1, p.2.2.map fun _ => ())

/-- Dispatch a list of actions in order from the outside, stopping at the
first thrown error (as sequential JS statements would). -/
def dispatchList {σ τ : Type} (beh : Nat → List Cmd) :
    Store σ τ → List (ActionVal τ) → Except DErr (Store σ τ)
  | s, [] => Except.ok s
  | s, a :: as =>
    match dispatch beh s a with
    | (s', _, Except.ok _) => dispatchList beh s' as
    | (_, _, Except.error e) => Except.error e

/-- The store at the moment `dispatch` takes its notification snapshot
(`const listeners = (currentListeners = nextListeners)`): the reducer's
output is committed, the guard is released, and the two listener arrays are
reference-identical. -/
def passStart {σ τ : Type} (s : Store σ τ) (st' : Option σ) : Store σ τ :=
  { s with currentState := st', isDispatching := false,
           currentListeners := s.nextListeners, listsShared := true }

/-- The three store fields a notification pass can never change: the guard
stays released, and neither the state nor the reducer is touched by
subscribe/unsubscribe commands. -/
def preservesCore {σ τ : Type} (s s' : Store σ τ) : Prop :=
  s'.isDispatching = false ∧ s'.currentState = s.currentState ∧
    s'.currentReducer = s.currentReducer

/-- The spec's example counter reducer: increments on `"INC"`, starting from
0 when the incoming state is `undefined`. -/
def cntR : Option Int → ActionVal String → Option Int :=
  fun st a =>
    match a with
    | .record _ (some (.user "INC")) => some (st.getD 0 + 1)
    | _ => some (st.getD 0)

/-- The well-formed user action `{ type: "INC" }`. -/
def incA : ActionVal String := ActionVal.record Proto.base (some (ActionType.user "INC"))

/-- A reducer that throws (exception code 3) on `{ type: "BOOM" }` and is the
identity otherwise. -/
def boomR : Reducer Int String :=
  fun st a =>
    match a with
    | .record _ (some (.user "BOOM")) => Except.error 3
    | _ => Except.ok st

/-- The well-formed user action `{ type: "BOOM" }`. -/
def boomA : ActionVal String := ActionVal.record Proto.base (some (ActionType.user "BOOM"))

/-- Listeners that do nothing when invoked. -/
def noBeh : Nat → List Cmd := fun _ => []

/-- A freshly created counter store. -/
def storeW : Store Int String := (createStore noBeh (pureReducer cntR) none).1

/-- The counter store after `subscribe(listener 0)` (which allocated handle
0). -/
def storeW1 : Store Int String := (subscribe storeW 0).1

/-- Behaviour: listener 0 calls its own unsubscribe handle (handle 0) when
invoked; every other listener does nothing. -/
def behSelfUnsub : Nat → List Cmd := fun l => if l = 0 then [Cmd.unsub 0] else []

/-- Behaviour: listener 0 subscribes a new listener 5 when invoked; every
other listener does nothing. -/
def behSubNew : Nat → List Cmd := fun l => if l = 0 then [Cmd.subscribeL 5] else []

/-- A store caught in the middle of a reducer invocation (`isDispatching`
set) whose handle 0 was already used once before (its `isSubscribed` flag is
cleared): the state seen from inside the reducer after `createStore`,
`subscribe(l0)`, calling the returned handle, then `dispatch({type:"INC"})`. -/
def storeMidDispatchSpent : Store Int String :=
  { currentReducer := pureReducer cntR
    currentState := some 0
    currentListeners := []
    nextListeners := []
    listsShared := false
    isDispatching := true
    handles := [⟨0, false⟩] }

/-- A second mid-dispatch store with a spent handle 0 (formerly listener 1)
and a still-active handle 1 for listener 2: the state seen from inside the
reducer after `createStore` (preloaded 7), `subscribe(l1)`, `subscribe(l2)`,
calling handle 0, then `dispatch({type:"INC"})`. -/
def storeMidDispatchSpent2 : Store Int String :=
  { currentReducer := pureReducer cntR
    currentState := some 7
    currentListeners := []
    nextListeners := [2]
    listsShared := false
    isDispatching := true
    handles := [⟨1, false⟩, ⟨2, true⟩] }

/-- A JS function in the composition chain: variadic, one result. -/
def JsF (U : Type) : Type := List U → U

/-- `compose(...funcs)`: no functions gives `arg => arg` (whose sole declared
parameter binds the first argument, `undefined` when there is none); one
function is returned unchanged; otherwise
`funcs.reduce((a, b) => (...args) => a(b(...args)))`, so the rightmost
function receives the whole argument list and every function to its left
receives exactly the single value produced to its right. -/
def compose {U : Type} (undef : U) (funcs : List (JsF U)) : JsF U :=
  match funcs with
  | [] => fun args => args.headD undef
  | [f] => f
  | f :: rest => rest.foldl (fun a b => fun args => a [b args]) f

/-! ## Helper lemmas about the listener registry and the notification pass -/

theorem ensure_fields {σ τ : Type} (s : Store σ τ) :
    (ensureCanMutateNextListeners s).isDispatching = s.isDispatching ∧
    (ensureCanMutateNextListeners s).currentState = s.currentState ∧
    (ensureCanMutateNextListeners s).currentReducer = s.currentReducer ∧
    (ensureCanMutateNextListeners s).handles = s.handles ∧
    (ensureCanMutateNextListeners s).currentListeners = s.currentListeners := by
  unfold ensureCanMutateNextListeners
  split <;> simp

theorem runCmd_ok {σ τ : Type} (s : Store σ τ) (c : Cmd)
    (h : s.isDispatching = false) :
    (runCmd s c).2 = Except.ok () ∧ preservesCore s (runCmd s c).1 := by
  cases c with
  | subscribeL l =>
    simp only [runCmd, subscribe, h, Bool.false_eq_true, if_false,
      ensureCanMutateNextListeners]
    split <;> simp [preservesCore, h, Except.map]
  | unsub hid =>
    simp only [runCmd, unsubscribeH]
    cases hh : s.handles[hid]? with
    | none => exact ⟨rfl, h, rfl, rfl⟩
    | some hd =>
      by_cases hs : hd.isSubscribed
      · simp only [hs, Bool.not_true, Bool.false_eq_true, if_false, h,
          ensureCanMutateNextListeners]
        split <;> simp [preservesCore, h]
      · simp only [Bool.not_eq_true] at hs
        simp [hs, preservesCore, h]
  | nop => exact ⟨rfl, h, rfl, rfl⟩

theorem runCmds_ok {σ τ : Type} (cs : List Cmd) (s : Store σ τ)
    (h : s.isDispatching = false) :
    (runCmds s cs).2 = Except.ok () ∧ preservesCore s (runCmds s cs).1 := by
  induction cs generalizing s with
  | nil => exact ⟨rfl, h, rfl, rfl⟩
  | cons c cs ih =>
    obtain ⟨hok, hd, hst, hr⟩ := runCmd_ok s c h
    rcases hc : runCmd s c with ⟨s', r⟩
    rw [hc] at hok hd hst hr
    simp only at hok hd hst hr
    subst hok
    obtain ⟨ih1, ih2, ih3, ih4⟩ := ih s' hd
    simp only [runCmds, hc]
    exact ⟨ih1, ih2, ih3.trans hst, ih4.trans hr⟩

theorem notify_ok {σ τ : Type} (beh : Nat → List Cmd) (ls : List Nat)
    (s : Store σ τ) (h : s.isDispatching = false) :
    (notify beh ls s).2.2 = Except.ok () ∧ (notify beh ls s).2.1 = ls ∧
      preservesCore s (notify beh ls s).1 := by
  induction ls generalizing s with
  | nil => exact ⟨rfl, rfl, h, rfl, rfl⟩
  | cons l rest ih =>
    obtain ⟨hok, hd, hst, hr⟩ := runCmds_ok (beh l) s h
    rcases hc : runCmds s (beh l) with ⟨s', r⟩
    rw [hc] at hok hd hst hr
    simp only at hok hd hst hr
    subst hok
    obtain ⟨ih1, ih2, ih3, ih4, ih5⟩ := ih s' hd
    simp only [notify, hc]
    exact ⟨ih1, by simp [ih2], ih3, ih4.trans hst, ih5.trans hr⟩

theorem notify_all_nop {σ τ : Type} (beh : Nat → List Cmd) (ls : List Nat)
    (s : Store σ τ) (h : ∀ x ∈ ls, beh x = []) :
    notify beh ls s = (s, ls, Except.ok ()) := by
  induction ls with
  | nil => rfl
  | cons l rest ih =>
    have hl : beh l = [] := h l (List.mem_cons_self l rest)
    have hrest := ih (fun x hx => h x (List.mem_cons_of_mem l hx))
    simp [notify, hl, runCmds, hrest]

theorem notify_single_actor {σ τ : Type} (beh : Nat → List Cmd) (j : Nat)
    (ls : List Nat) (s : Store σ τ) (h : s.isDispatching = false)
    (hcount : ls.count j = 1) (hrest : ∀ x ∈ ls, x ≠ j → beh x = []) :
    notify beh ls s = ((runCmds s (beh j)).1, ls, Except.ok ()) := by
  induction ls generalizing s with
  | nil => simp at hcount
  | cons x rest ih =>
    by_cases hx : x = j
    · subst hx
      have hnomem : x ∉ rest := by
        intro hmem
        have h1 : 1 ≤ rest.count x := List.count_pos_iff.mpr hmem
        have h2 : (x :: rest).count x = rest.count x + 1 := by
          simp [List.count_cons]
        omega
      obtain ⟨hok, hd, _, _⟩ := runCmds_ok (beh x) s h
      rcases hc : runCmds s (beh x) with ⟨s', r⟩
      rw [hc] at hok hd
      simp only at hok hd
      subst hok
      have := notify_all_nop beh rest s'
        (fun y hy => hrest y (List.mem_cons_of_mem x hy)
          (fun hyx => hnomem (hyx ▸ hy)))
      simp [notify, hc, this]
    · have hbx : beh x = [] := hrest x (List.mem_cons_self x rest) hx
      have hcount' : rest.count j = 1 := by
        have : (x :: rest).count j = rest.count j := by
          simp [List.count_cons, hx, Ne.symm hx]
        omega
      have := ih s h hcount' (fun y hy => hrest y (List.mem_cons_of_mem x hy))
      simp [notify, hbx, runCmds, this]

/-! ## Characterisation of `dispatch` -/

theorem dispatch_eq_notify {σ τ : Type} (beh : Nat → List Cmd)
    (s : Store σ τ) (a : ActionVal τ) (st' : Option σ)
    (hidle : s.isDispatching = false) (hval : validAction a = true)
    (hred : s.currentReducer s.currentState a = Except.ok st') :
    dispatch beh s a =
      ((notify beh s.nextListeners (passStart s st')).1,
        (notify beh s.nextListeners (passStart s st')).2.1,
        (notify beh s.nextListeners (passStart s st')).2.2.map fun _ => a) := by
  obtain ⟨hp, ht⟩ : isPlainObject a = true ∧ hasDefinedType a = true := by
    simpa [validAction] using hval
  simp only [dispatch, hp, ht, hidle, Bool.not_true, Bool.false_eq_true,
    if_false, hred, passStart]

theorem dispatch_ok {σ τ : Type} (beh : Nat → List Cmd)
    (s : Store σ τ) (a : ActionVal τ) (st' : Option σ)
    (hidle : s.isDispatching = false) (hval : validAction a = true)
    (hred : s.currentReducer s.currentState a = Except.ok st') :
    (dispatch beh s a).2.1 = s.nextListeners ∧
      (dispatch beh s a).2.2 = Except.ok a ∧
      (dispatch beh s a).1.isDispatching = false ∧
      (dispatch beh s a).1.currentState = st' ∧
      (dispatch beh s a).1.currentReducer = s.currentReducer := by
  rw [dispatch_eq_notify beh s a st' hidle hval hred]
  obtain ⟨h1, h2, h3, h4, h5⟩ :=
    notify_ok beh s.nextListeners (passStart s st') rfl
  exact ⟨h2, by rw [h1]; rfl, h3, h4, h5⟩

/-! ## The claims -/

/-- C3 (amended): while a reducer invocation is executing (`isDispatching`
set), `getState`, `subscribe`, a still-active unsubscribe handle, and a
nested `dispatch` of a well-formed action all fail synchronously with the
corresponding reentrancy error; a handle whose `isSubscribed` flag was
already cleared is the one exception — it returns silently. -/
theorem reentrancy_guard_blocks_ops {σ τ : Type} (beh : Nat → List Cmd)
    (s : Store σ τ) (a : ActionVal τ) (l hid lid : Nat)
    (hd : s.isDispatching = true) :
    getState s = Except.error DErr.reentrantGetState ∧
    (subscribe s l).2 = Except.error DErr.reentrantSubscribe ∧
    (s.handles[hid]? = some ⟨lid, true⟩ →
      (unsubscribeH s hid).2 = Except.error DErr.reentrantUnsubscribe) ∧
    (validAction a = true →
      (dispatch beh s a).2.2 = Except.error DErr.reentrantDispatch) := by
  refine ⟨by simp [getState, hd], by simp [subscribe, hd], ?_, ?_⟩
  · intro hh
    simp [unsubscribeH, hh, hd]
  · intro hval
    obtain ⟨hp, ht⟩ : isPlainObject a = true ∧ hasDefinedType a = true := by
      simpa [validAction] using hval
    simp [dispatch, hp, ht, hd]

/-- Witness for C3's theorem at the concrete mid-dispatch store
`storeMidDispatchSpent2` (active handle 1, well-formed action `incA`). -/
theorem reentrancy_guard_blocks_ops_witness :
    getState storeMidDispatchSpent2 = Except.error DErr.reentrantGetState ∧
    (subscribe storeMidDispatchSpent2 9).2 =
      Except.error DErr.reentrantSubscribe ∧
    (unsubscribeH storeMidDispatchSpent2 1).2 =
      Except.error DErr.reentrantUnsubscribe ∧
    (dispatch noBeh storeMidDispatchSpent2 incA).2.2 =
      Except.error DErr.reentrantDispatch :=
  have h := reentrancy_guard_blocks_ops noBeh storeMidDispatchSpent2 incA 9 1 2 rfl
  ⟨h.1, h.2.1, h.2.2.1 rfl, h.2.2.2 rfl⟩

/-- Counterexample to C3 as stated: from state Dispatching, a call to a
previously obtained unsubscribe handle that was already used once
(`isSubscribed` cleared) does NOT fail with a ReentrancyError — it returns
successfully, so not every such call fails. -/
theorem reentrancy_guard_spent_handle_cex :
    storeMidDispatchSpent.isDispatching = true ∧
    storeMidDispatchSpent.handles[0]? = some ⟨0, false⟩ ∧
    (unsubscribeH storeMidDispatchSpent 0).2 = Except.ok () := by
  refine ⟨rfl, rfl, rfl⟩

/-- C4: `dispatch` releases the reentrancy guard on every exit path — after
any `dispatch` call that started from the idle state, `isDispatching` is
false again, whether the reducer returned normally or threw; and when the
reducer throws, its exception propagates to the `dispatch` caller. -/
theorem dispatch_releases_guard {σ τ : Type} (beh : Nat → List Cmd)
    (s : Store σ τ) (a : ActionVal τ) (hidle : s.isDispatching = false) :
    (dispatch beh s a).1.isDispatching = false ∧
    (∀ code, validAction a = true →
      s.currentReducer s.currentState a = Except.error code →
      (dispatch beh s a).2.2 = Except.error (DErr.reducerThrew code)) := by
  constructor
  · by_cases hp : isPlainObject a
    · by_cases ht : hasDefinedType a
      · cases hred : s.currentReducer s.currentState a with
        | error code => simp [dispatch, hp, ht, hidle, hred]
        | ok st' =>
          exact (dispatch_ok beh s a st' hidle
            (by simp [validAction, hp, ht]) hred).2.2.1
      · simp only [Bool.not_eq_true] at ht
        simp [dispatch, hp, ht, hidle]
    · simp only [Bool.not_eq_true] at hp
      simp [dispatch, hp, hidle]
  · intro code hval hred
    obtain ⟨hp, ht⟩ : isPlainObject a = true ∧ hasDefinedType a = true := by
      simpa [validAction] using hval
    simp [dispatch, hp, ht, hidle, hred]

/-- Witness for C4's theorem: the throwing counter store — after dispatching
`{type:"BOOM"}` to a `boomR` store the guard is released and the exception
code 3 propagated. -/
theorem dispatch_releases_guard_witness :
    ((dispatch noBeh (createStore noBeh boomR (some 5)).1 boomA).1.isDispatching
        = false) ∧
    (dispatch noBeh (createStore noBeh boomR (some 5)).1 boomA).2.2 =
      Except.error (DErr.reducerThrew 3) :=
  have h :=
    dispatch_releases_guard noBeh (createStore noBeh boomR (some 5)).1 boomA rfl
  ⟨h.1, h.2 3 rfl rfl⟩

/-- C5: for every well-formed action `a` dispatched from the idle state with
a non-throwing reducer step, `dispatch(a)` returns exactly the action value
`a` it was given, never a transformed value. -/
theorem dispatch_returns_action {σ τ : Type} (beh : Nat → List Cmd)
    (s : Store σ τ) (a : ActionVal τ) (st' : Option σ)
    (hidle : s.isDispatching = false) (hval : validAction a = true)
    (hred : s.currentReducer s.currentState a = Except.ok st') :
    (dispatch beh s a).2.2 = Except.ok a :=
  (dispatch_ok beh s a st' hidle hval hred).2.1

/-- Witness for C5's theorem: dispatching `{type:"INC"}` to the counter store
returns that very action. -/
theorem dispatch_returns_action_witness :
    (dispatch noBeh storeW incA).2.2 = Except.ok incA :=
  dispatch_returns_action noBeh storeW incA (some 1) rfl rfl rfl

/-- C6: dispatching a non-plain action fails with the "plain objects" error
and dispatching a plain action without a defined `type` fails with the
"undefined type" error; in both cases the whole store (state, listener lists,
handles, guard) is returned unchanged and the trace of invoked listeners is
empty — validation precedes the reducer. -/
theorem dispatch_invalid_action {σ τ : Type} (beh : Nat → List Cmd)
    (s : Store σ τ) (a : ActionVal τ) :
    (isPlainObject a = false →
      dispatch beh s a = (s, [], Except.error DErr.actionNotPlain)) ∧
    (isPlainObject a = true → hasDefinedType a = false →
      dispatch beh s a = (s, [], Except.error DErr.actionTypeUndefined)) := by
  constructor
  · intro hp
    simp [dispatch, hp]
  · intro hp ht
    simp [dispatch, hp, ht]

/-- Witness for C6's theorem: an array action and a typeless plain record,
against the counter store. -/
theorem dispatch_invalid_action_witness :
    dispatch noBeh storeW (ActionVal.array (τ := String)) =
      (storeW, [], Except.error DErr.actionNotPlain) ∧
    dispatch noBeh storeW (ActionVal.record (τ := String) Proto.base none) =
      (storeW, [], Except.error DErr.actionTypeUndefined) :=
  ⟨(dispatch_invalid_action noBeh storeW ActionVal.array).1 rfl,
    (dispatch_invalid_action noBeh storeW
      (ActionVal.record Proto.base none)).2 rfl rfl⟩

/-- C7: `compose` of no functions is the identity on its (first) argument,
`compose` of one function is that function itself, and
`compose(f, g, h)(...args)` is `f(g(h(...args)))`: the rightmost function
receives the full original argument list, every function to its left exactly
the single return value of the function to its right. -/
theorem compose_spec {U : Type} (undef : U) :
    (∀ x : U, compose undef [] [x] = x) ∧
    (∀ f : JsF U, compose undef [f] = f) ∧
    (∀ (f g h : JsF U) (args : List U),
      compose undef [f, g, h] args = f [g [h args]]) :=
  ⟨fun _ => rfl, fun _ => rfl, fun _ _ _ _ => rfl⟩

/-- C10: if the reducer invocation inside `dispatch` throws, the dispatch is
atomic — the returned store is exactly the store before the call (state,
listener lists, sharing, handles and guard all unchanged), no listener is
invoked, and the reducer's exception propagates. -/
theorem dispatch_atomic_on_reducer_throw {σ τ : Type} (beh : Nat → List Cmd)
    (s : Store σ τ) (a : ActionVal τ) (code : Nat)
    (hidle : s.isDispatching = false) (hval : validAction a = true)
    (hred : s.currentReducer s.currentState a = Except.error code) :
    dispatch beh s a = (s, [], Except.error (DErr.reducerThrew code)) := by
  obtain ⟨hp, ht⟩ : isPlainObject a = true ∧ hasDefinedType a = true := by
    simpa [validAction] using hval
  cases s with
  | mk r cst cl nl sh d hs =>
    simp only at hidle
    subst hidle
    simp only at hred
    simp [dispatch, hp, ht, hred]

/-- Witness for C10's theorem: the `boomR` store is returned untouched when
`{type:"BOOM"}` makes the reducer throw. -/
theorem dispatch_atomic_on_reducer_throw_witness :
    dispatch noBeh (createStore noBeh boomR (some 5)).1 boomA =
      ((createStore noBeh boomR (some 5)).1, [],
        Except.error (DErr.reducerThrew 3)) :=
  dispatch_atomic_on_reducer_throw noBeh (createStore noBeh boomR (some 5)).1
    boomA 3 rfl rfl rfl

theorem dispatchList_fold {σ τ : Type} (beh : Nat → List Cmd)
    (r : Option σ → ActionVal τ → Option σ) (as : List (ActionVal τ)) :
    ∀ s : Store σ τ, s.isDispatching = false →
      s.currentReducer = pureReducer r →
      (∀ a ∈ as, validAction a = true) →
      ∃ sf, dispatchList beh s as = Except.ok sf ∧
        sf.currentState = as.foldl r s.currentState ∧
        sf.isDispatching = false ∧ sf.currentReducer = pureReducer r := by
  induction as with
  | nil => exact fun s h1 h2 _ => ⟨s, rfl, rfl, h1, h2⟩
  | cons a as ih =>
    intro s h1 h2 h3
    have hva : validAction a = true := h3 a (List.mem_cons_self a as)
    have hred : s.currentReducer s.currentState a =
        Except.ok (r s.currentState a) := by rw [h2]; rfl
    obtain ⟨_, hret, hdisp, hst, hredr⟩ := dispatch_ok beh s a _ h1 hva hred
    rcases hda : dispatch beh s a with ⟨s', tr, res⟩
    rw [hda] at hret hdisp hst hredr
    simp only at hret hdisp hst hredr
    subst hret
    obtain ⟨sf, hrun, hfold, hf1, hf2⟩ :=
      ih s' hdisp (hredr.trans h2) (fun x hx => h3 x (List.mem_cons_of_mem a hx))
    refine ⟨sf, ?_, ?_, hf1, hf2⟩
    · simp [dispatchList, hda, hrun]
    · rw [hfold, hst, List.foldl_cons]

/-- C1: constructing a store (no enhancer) from a pure reducer `r` and an
optional preloaded state, then dispatching any sequence of well-formed
actions in order, succeeds and leaves `getState()` equal to the left fold of
`r` over the INIT-transformed preloaded state and the action list. -/
theorem store_state_is_fold {σ τ : Type} (beh : Nat → List Cmd)
    (r : Option σ → ActionVal τ → Option σ) (pre : Option σ)
    (as : List (ActionVal τ)) (hval : ∀ a ∈ as, validAction a = true) :
    ∃ sf, dispatchList beh (createStore beh (pureReducer r) pre).1 as =
        Except.ok sf ∧
      getState sf = Except.ok (as.foldl r (r pre (actInit τ))) := by
  have hcs : (createStore beh (pureReducer r) pre).1 =
      (dispatch beh (initialStore (pureReducer r) pre) (actInit τ)).1 := rfl
  obtain ⟨_, hret, hdisp, hst, hredr⟩ :=
    dispatch_ok beh (initialStore (pureReducer r) pre) (actInit τ)
      (r pre (actInit τ)) rfl rfl rfl
  obtain ⟨sf, hrun, hfold, hf1, _⟩ :=
    dispatchList_fold beh r as (createStore beh (pureReducer r) pre).1
      (hcs ▸ hdisp) (hcs ▸ hredr) hval
  refine ⟨sf, hrun, ?_⟩
  rw [getState, if_neg (by rw [hf1]; exact Bool.false_ne_true), hfold, hcs, hst]

/-- Witness for C1's theorem: the counter store dispatches
`{type:"INC"}` three times and `getState()` yields the fold, `some 3`. -/
theorem store_state_is_fold_witness :
    ∃ sf, dispatchList noBeh
        (createStore noBeh (pureReducer cntR) none).1 [incA, incA, incA] =
        Except.ok sf ∧
      getState sf =
        Except.ok ([incA, incA, incA].foldl cntR (cntR none (actInit String))) :=
  store_state_is_fold noBeh cntR none [incA, incA, incA] (by decide)

/-- C8 (amended): the staging and active listener lists are NOT identical
after a subscribe performed while the store is idle — `subscribe` always
leaves `nextListeners` a fresh copy; the two lists become identical by
reference when a dispatch's notification pass begins, and (when no listener
mutates the registry during the pass) they are still identical when that
dispatch returns. -/
theorem listener_lists_sharing {σ τ : Type} (beh : Nat → List Cmd)
    (s : Store σ τ) (a : ActionVal τ) (st' : Option σ) (l : Nat)
    (hidle : s.isDispatching = false) :
    (subscribe s l).1.listsShared = false ∧
    (validAction a = true → s.currentReducer s.currentState a = Except.ok st' →
      (∀ x ∈ s.nextListeners, beh x = []) →
      (dispatch beh s a).1.listsShared = true ∧
      (dispatch beh s a).1.currentListeners = (dispatch beh s a).1.nextListeners) := by
  constructor
  · simp only [subscribe, hidle, Bool.false_eq_true, if_false,
      ensureCanMutateNextListeners]
    split <;> simp_all
  · intro hval hred hnop
    rw [dispatch_eq_notify beh s a st' hidle hval hred,
      notify_all_nop beh s.nextListeners (passStart s st') hnop]
    exact ⟨rfl, rfl⟩

/-- Witness for C8's amended theorem: subscribing listener 3 to `storeW1`
breaks sharing; dispatching `{type:"INC"}` (listener 0 a no-op) restores
reference identity of the two lists. -/
theorem listener_lists_sharing_witness :
    (subscribe storeW1 3).1.listsShared = false ∧
    (dispatch noBeh storeW1 incA).1.listsShared = true ∧
    (dispatch noBeh storeW1 incA).1.currentListeners =
      (dispatch noBeh storeW1 incA).1.nextListeners :=
  have h := listener_lists_sharing noBeh storeW1 incA (some 1) 3 rfl
  have h2 := h.2 rfl rfl (by decide)
  ⟨h.1, h2.1, h2.2⟩

/-- Counterexample to C8 as stated: `storeW1` — reached by `createStore`
followed by one idle `subscribe` — is idle (no notification pass in
progress), yet its active list `[]` and staging list `[0]` are different
lists, not reference-identical. -/
theorem listener_lists_sharing_cex :
    storeW1.isDispatching = false ∧ storeW1.listsShared = false ∧
    storeW1.currentListeners = [] ∧ storeW1.nextListeners = [0] :=
  ⟨rfl, rfl, rfl, rfl⟩

/-- C9 (amended): an unsubscribe handle whose flag was already cleared is a
silent no-op — even while a dispatch is in progress, where the claim expected
a ReentrancyError; a still-active handle called during dispatch does fail
with the ReentrancyError; and a successful idle call clears the flag so that
a second call has no effect. -/
theorem unsubscribe_idempotent_and_guarded {σ τ : Type} (s : Store σ τ)
    (h lid : Nat) :
    (s.handles[h]? = some ⟨lid, false⟩ → unsubscribeH s h = (s, Except.ok ())) ∧
    (s.isDispatching = true → s.handles[h]? = some ⟨lid, true⟩ →
      (unsubscribeH s h).2 = Except.error DErr.reentrantUnsubscribe) ∧
    (s.isDispatching = false → s.handles[h]? = some ⟨lid, true⟩ →
      (unsubscribeH s h).1.handles[h]? = some (⟨lid, false⟩ : Handle) ∧
      unsubscribeH (unsubscribeH s h).1 h = ((unsubscribeH s h).1, Except.ok ())) := by
  refine ⟨?_, ?_, ?_⟩
  · intro hh
    simp [unsubscribeH, hh]
  · intro hd hh
    simp [unsubscribeH, hh, hd]
  · intro hidle hh
    have hlen : h < s.handles.length := by
      by_contra hge
      rw [List.getElem?_eq_none (by omega)] at hh
      exact Option.noConfusion hh
    have hres : (unsubscribeH s h).1.handles =
        s.handles.set h ⟨lid, false⟩ := by
      simp only [unsubscribeH, hh, Bool.not_true, Bool.false_eq_true, if_false,
        hidle, ensureCanMutateNextListeners]
      split <;> simp
    have hget : (unsubscribeH s h).1.handles[h]? =
        some (⟨lid, false⟩ : Handle) := by
      rw [hres]
      exact List.getElem?_set_eq_of_lt _ hlen
    refine ⟨hget, ?_⟩
    generalize hgen : (unsubscribeH s h).1 = t at hget ⊢
    simp [unsubscribeH, hget]

/-- Witness for C9's amended theorem: calling `storeW1`'s handle 0 clears its
flag and a second call is a no-op; calling the active handle 1 of the
mid-dispatch store fails with the ReentrancyError. -/
theorem unsubscribe_idempotent_and_guarded_witness :
    (unsubscribeH storeW1 0).1.handles[0]? = some (⟨0, false⟩ : Handle) ∧
    unsubscribeH (unsubscribeH storeW1 0).1 0 =
      ((unsubscribeH storeW1 0).1, Except.ok ()) ∧
    (unsubscribeH storeMidDispatchSpent2 1).2 =
      Except.error DErr.reentrantUnsubscribe :=
  have h1 := (unsubscribe_idempotent_and_guarded storeW1 0 0).2.2 rfl rfl
  have h2 :=
    (unsubscribe_idempotent_and_guarded storeMidDispatchSpent2 1 2).2.1 rfl rfl
  ⟨h1.1, h1.2, h2⟩

/-- Counterexample to C9 as stated: `storeMidDispatchSpent2` is mid-dispatch
and its handle 0 was already used once (flag cleared); calling that handle
does not fail with a ReentrancyError — it returns successfully. -/
theorem unsubscribe_idempotent_and_guarded_cex :
    storeMidDispatchSpent2.isDispatching = true ∧
    storeMidDispatchSpent2.handles[0]? = some (⟨1, false⟩ : Handle) ∧
    (unsubscribeH storeMidDispatchSpent2 0).2 = Except.ok () :=
  ⟨rfl, rfl, rfl⟩

theorem unsubscribeH_pass_effect {σ τ : Type} (p : Store σ τ) (hid l : Nat)
    (hh : p.handles[hid]? = some ⟨l, true⟩) (hd : p.isDispatching = false)
    (hsh : p.listsShared = true) :
    unsubscribeH p hid =
      ({ p with handles := p.handles.set hid ⟨l, false⟩,
                nextListeners := spliceRemove p.currentListeners l,
                listsShared := false }, Except.ok ()) := by
  simp [unsubscribeH, hh, hd, ensureCanMutateNextListeners, hsh]

theorem subscribe_pass_effect {σ τ : Type} (p : Store σ τ) (m : Nat)
    (hd : p.isDispatching = false) (hsh : p.listsShared = true) :
    subscribe p m =
      ({ p with nextListeners := p.currentListeners ++ [m],
                listsShared := false,
                handles := p.handles ++ [⟨m, true⟩] },
        Except.ok p.handles.length) := by
  simp [subscribe, hd, ensureCanMutateNextListeners, hsh]

/-- C2: a notification pass invokes exactly the snapshot of `nextListeners`
taken when the triggering dispatch committed; hence (A) a listener that calls
its own unsubscribe handle during the pass is still invoked in that same pass
and is only missing from subsequent passes, and (B) a listener registered via
`subscribe` during the pass is not invoked in that pass but is invoked
starting with the next dispatch's pass. -/
theorem notification_pass_snapshot {σ τ : Type} (beh beh₂ : Nat → List Cmd)
    (s : Store σ τ) (a a' : ActionVal τ) (st' st'' : Option σ)
    (hidle : s.isDispatching = false) (hval : validAction a = true)
    (hred : s.currentReducer s.currentState a = Except.ok st') :
    (dispatch beh s a).2.1 = s.nextListeners ∧
    (∀ l hid, s.handles[hid]? = some ⟨l, true⟩ →
      s.nextListeners.count l = 1 →
      beh l = [Cmd.unsub hid] →
      (∀ x ∈ s.nextListeners, x ≠ l → beh x = []) →
      l ∈ (dispatch beh s a).2.1 ∧
      l ∉ (dispatch beh s a).1.nextListeners ∧
      (validAction a' = true →
        (dispatch beh s a).1.currentReducer (dispatch beh s a).1.currentState a'
          = Except.ok st'' →
        l ∉ (dispatch beh₂ (dispatch beh s a).1 a').2.1)) ∧
    (∀ j m, s.nextListeners.count j = 1 →
      beh j = [Cmd.subscribeL m] →
      (∀ x ∈ s.nextListeners, x ≠ j → beh x = []) →
      m ∉ s.nextListeners →
      m ∉ (dispatch beh s a).2.1 ∧
      m ∈ (dispatch beh s a).1.nextListeners ∧
      (validAction a' = true →
        (dispatch beh s a).1.currentReducer (dispatch beh s a).1.currentState a'
          = Except.ok st'' →
        m ∈ (dispatch beh₂ (dispatch beh s a).1 a').2.1)) := by
  obtain ⟨htr, -, hafter, -, -⟩ := dispatch_ok beh s a st' hidle hval hred
  have hde := dispatch_eq_notify beh s a st' hidle hval hred
  refine ⟨htr, ?_, ?_⟩
  · intro l hid hh hcount hbeh hnops
    have hmem : l ∈ s.nextListeners := by
      rw [← List.count_pos_iff]; omega
    have hsingle := notify_single_actor beh l s.nextListeners (passStart s st')
      rfl hcount hnops
    have hrun : runCmds (passStart s st') (beh l) =
        ({ passStart s st' with
            handles := (passStart s st').handles.set hid ⟨l, false⟩,
            nextListeners := spliceRemove (passStart s st').currentListeners l,
            listsShared := false }, Except.ok ()) := by
      rw [hbeh]
      have heff := unsubscribeH_pass_effect (passStart s st') hid l hh rfl rfl
      simp [runCmds, runCmd, heff]
    have hnext : (dispatch beh s a).1.nextListeners = s.nextListeners.erase l := by
      rw [hde]
      simp only [hsingle, hrun]
      show spliceRemove s.nextListeners l = s.nextListeners.erase l
      rw [spliceRemove, if_pos (by simpa using hmem)]
    have hnotmem : l ∉ s.nextListeners.erase l := by
      intro hcontra
      have h1 := List.count_erase_self l s.nextListeners
      have h2 := List.count_pos_iff.mpr hcontra
      omega
    refine ⟨by rw [htr]; exact hmem, by rw [hnext]; exact hnotmem, ?_⟩
    intro hval' hred'
    obtain ⟨htr', -, -, -, -⟩ :=
      dispatch_ok beh₂ (dispatch beh s a).1 a' st'' hafter hval' hred'
    rw [htr', hnext]
    exact hnotmem
  · intro j m hcount hbeh hnops hnotmem
    have hsingle := notify_single_actor beh j s.nextListeners (passStart s st')
      rfl hcount hnops
    have hrun : runCmds (passStart s st') (beh j) =
        ({ passStart s st' with
            nextListeners := (passStart s st').currentListeners ++ [m],
            listsShared := false,
            handles := (passStart s st').handles ++ [⟨m, true⟩] },
          Except.ok ()) := by
      rw [hbeh]
      have heff := subscribe_pass_effect (passStart s st') m rfl rfl
      simp [runCmds, runCmd, heff, Except.map]
    have hnext : (dispatch beh s a).1.nextListeners = s.nextListeners ++ [m] := by
      rw [hde]
      simp only [hsingle, hrun]
      rfl
    have hmem' : m ∈ s.nextListeners ++ [m] := by simp
    refine ⟨by rw [htr]; exact hnotmem, by rw [hnext]; exact hmem', ?_⟩
    intro hval' hred'
    obtain ⟨htr', -, -, -, -⟩ :=
      dispatch_ok beh₂ (dispatch beh s a).1 a' st'' hafter hval' hred'
    rw [htr', hnext]
    exact hmem'

/-- Witness for C2's theorem at `storeW1`: listener 0 unsubscribing itself is
still invoked in the pass and absent from the next one; a listener 5
subscribed by listener 0 during the pass is not invoked in that pass, lands
in the staging list, and is invoked in the next dispatch's pass. -/
theorem notification_pass_snapshot_witness :
    (0 ∈ (dispatch behSelfUnsub storeW1 incA).2.1 ∧
      0 ∉ (dispatch behSelfUnsub storeW1 incA).1.nextListeners ∧
      0 ∉ (dispatch noBeh (dispatch behSelfUnsub storeW1 incA).1 incA).2.1) ∧
    (5 ∉ (dispatch behSubNew storeW1 incA).2.1 ∧
      5 ∈ (dispatch behSubNew storeW1 incA).1.nextListeners ∧
      5 ∈ (dispatch noBeh (dispatch behSubNew storeW1 incA).1 incA).2.1) :=
  have hA := (notification_pass_snapshot behSelfUnsub noBeh storeW1 incA incA
    (some 1) (some 2) rfl rfl rfl).2.1 0 0 rfl (by decide) rfl (by decide)
  have hB := (notification_pass_snapshot behSubNew noBeh storeW1 incA incA
    (some 1) (some 2) rfl rfl rfl).2.2 0 5 (by decide) rfl (by decide)
    (by decide)
  ⟨⟨hA.1, hA.2.1, hA.2.2 rfl rfl⟩, hB.1, hB.2.1, hB.2.2 rfl rfl⟩

end Redux
